import Mathlib

/-!
Verification of the Probe Orchestration and Issue Classification Engine
(`src/tools/functional-qa.ts`).  The browser page is modelled as an oracle
(`PageModel`) describing the outcome of every browser-bound operation the
probes perform; operations that can throw are modelled with `Except`.  The
probes, the interaction runner, the orchestrator and the result aggregator
are translated from the source; shared mutable `qaResults`/`issues` arrays
become explicit append-only list accumulation, and issue `details` payloads
are flattened to locator strings.
-/

namespace QAMCP

/-- Outcome of one named check or flow (`qaResults` entries). -/
structure StepResult where
  stepNumber : Nat
  action : String
  passed : Bool
  error : Option String := none
  actualValue : Option String := none
  expectedValue : Option String := none
  deriving DecidableEq

structure TestResult where
  testName : String
  passed : Bool
  error : Option String := none
  steps : List StepResult := []
  deriving DecidableEq

/-- A classified issue (severity, category, description, recommendation). -/
structure Issue where
  severity : String
  category : String
  issue : String
  recommendation : String
  details : List String := []
  deriving DecidableEq

/-- One scripted interaction step of a user flow. -/
structure FlowStep where
  action : String
  selector : Option String := none
  value : Option String := none
  expected : Option String := none
  timeout : Nat := 5000
  deriving DecidableEq

/-- Behaviour of the page for one step: a thrown error, or for `verify` the
located element's text content (`none` when `page.$` returned null). -/
abbrev StepBeh := Except String (Option String)

/-- A named user flow paired with the page's behaviour at each step. -/
structure Flow where
  name : String
  steps : List (FlowStep × StepBeh)

/-- Oracle for every browser-bound operation the suite performs against one
page.  `Except` errors model thrown promises; statuses model
`response?.status()` with `none` for a null response. -/
structure PageModel where
  launchOk : Except String Unit := .ok ()
  newPageOk : Except String Unit := .ok ()
  viewportOk : Except String Unit := .ok ()
  connNav : Except String (Option Nat) := .ok (some 200)
  title : Except String String := .ok "Home"
  brokenImages : Except String Nat := .ok 0
  jsErrors : List String := []
  basicWait : Except String Unit := .ok ()
  navLinks : Except String (List String) := .ok []
  gotoUrl : String → Except String (Option Nat) := fun _ => .ok (some 200)
  forms : Except String (List Bool) := .ok []
  unlabeled : Except String (List String) := .ok []
  respMobile : Except String (Bool × Bool) := .ok (false, false)
  respTablet : Except String (Bool × Bool) := .ok (false, false)
  respDesktop : Except String (Bool × Bool) := .ok (false, false)
  uiEval : Except String (List String × List String) := .ok ([], [])
  heap : Except String Nat := .ok 0
  loadComplete : Except String Nat := .ok 0

/-- Contribution of one probe: the test results and issues it pushes, plus
an uncaught error if it threw. -/
structure ProbeOut where
  results : List TestResult := []
  issues : List Issue := []
  err : Option String := none

def ProbeOut.append (a b : ProbeOut) : ProbeOut :=
  { results := a.results ++ b.results
    issues := a.issues ++ b.issues
    err := a.err.orElse fun _ => b.err }

/-- `response?.status()` rendered the way template interpolation does. -/
def statusText : Option Nat → String
  | some s => toString s
  | none => "undefined"

/-- JavaScript `String.prototype.trim`, structurally on the character
list. -/
def strTrim (s : String) : String :=
  ⟨((s.data.dropWhile fun c => c.isWhitespace).reverse.dropWhile fun c => c.isWhitespace).reverse⟩

/-- `testConnectivity`: initial navigation; passes only on status 200. -/
def testConnectivity (nav : Except String (Option Nat)) : TestResult :=
  match nav with
  | .ok resp =>
      { testName := "Connectivity Test"
        passed := resp == some 200
        error := if resp == some 200 then none else some ("HTTP " ++ statusText resp) }
  | .error e => { testName := "Connectivity Test", passed := false, error := some e }

/-- The critical issue pushed by the orchestrator when connectivity fails. -/
def connectivityIssue (r : TestResult) : Issue :=
  { severity := "critical", category := "Connectivity"
    issue := r.error.getD ""
    recommendation := "Ensure the development server is running and accessible" }

/-- `runBasicTests`: page title, broken images, JavaScript errors.  The
`waitForTimeout` before the JS-error check is outside any try block, so its
failure escapes the probe. -/
def runBasicTests (m : PageModel) : ProbeOut :=
  let titleOut : ProbeOut :=
    match m.title with
    | .ok t =>
        let ok := decide (0 < (strTrim t).length)
        { results := [{ testName := "Page Title Check", passed := ok }]
          issues := if ok then [] else
            [{ severity := "minor", category := "SEO"
               issue := "Page title is missing or empty"
               recommendation := "Add a descriptive page title for better SEO and user experience" }] }
    | .error e =>
        { results := [{ testName := "Page Title Check", passed := false, error := some e }] }
  let imgOut : ProbeOut :=
    match m.brokenImages with
    | .ok n =>
        { results := [{ testName := "Broken Images Check", passed := n == 0 }]
          issues := if 0 < n then
            [{ severity := "major", category := "Content"
               issue := toString n ++ " broken image(s) detected"
               recommendation := "Fix broken image sources and ensure all images load correctly" }]
            else [] }
    | .error e =>
        { results := [{ testName := "Broken Images Check", passed := false, error := some e }] }
  let jsOut : ProbeOut :=
    match m.basicWait with
    | .error e => { err := some e }
    | .ok _ =>
        { results := [{ testName := "JavaScript Errors Check", passed := m.jsErrors.isEmpty }]
          issues := if m.jsErrors.isEmpty then [] else
            [{ severity := "critical", category := "JavaScript"
               issue := toString m.jsErrors.length ++ " JavaScript error(s) detected"
               recommendation := "Fix JavaScript errors to ensure proper application functionality"
               details := m.jsErrors }] }
  titleOut.append (imgOut.append jsOut)

/-- Fold state while probing internal links. -/
structure LinkAcc where
  working : Nat
  broken : Nat
  details : List String
  cur : String

/-- One `page.goto(link.href)` during the navigation probe; a navigation
that returns updates the location, a thrown one leaves it unchanged. -/
def testLink (m : PageModel) (a : LinkAcc) (href : String) : LinkAcc :=
  match m.gotoUrl href with
  | .ok resp =>
      if resp == some 200 then
        { a with working := a.working + 1, cur := href }
      else
        { a with broken := a.broken + 1, details := a.details ++ [href], cur := href }
  | .error _ =>
      { a with broken := a.broken + 1, details := a.details ++ [href] }

/-- `runNavigationTests`: probes at most 10 internal links and then
navigates back to the original URL; a thrown restore navigation is caught
and recorded as a second failed result. -/
def runNavigationTests (m : PageModel) (url : String) (cur : String) : ProbeOut × String :=
  match m.navLinks with
  | .error e =>
      ({ results := [{ testName := "Navigation Links Test", passed := false, error := some e }] }, cur)
  | .ok links =>
      let a := (links.take 10).foldl (testLink m)
        { working := 0, broken := 0, details := [], cur := cur }
      let res : TestResult := { testName := "Navigation Links Test", passed := a.broken == 0 }
      let iss : List Issue :=
        if 0 < a.broken then
          [{ severity := "major", category := "Navigation"
             issue := toString a.broken ++ " broken internal link(s) found"
             recommendation := "Fix broken navigation links to improve user experience"
             details := a.details }]
        else []
      match m.gotoUrl url with
      | .ok _ => ({ results := [res], issues := iss }, url)
      | .error e =>
          ({ results := [res, { testName := "Navigation Links Test", passed := false, error := some e }]
             issues := iss }, a.cur)

/-- `runFormTests`: form structure and unlabeled inputs; a failure of the
second DOM query is caught and pushes a second failed result. -/
def runFormTests (m : PageModel) : ProbeOut :=
  match m.forms with
  | .error e =>
      { results := [{ testName := "Form Structure Check", passed := false, error := some e }] }
  | .ok fs =>
      let structRes : TestResult := { testName := "Form Structure Check", passed := fs.all (fun b => b) }
      let noSubmit := fs.filter (fun b => !b)
      let submitIss : List Issue :=
        if 0 < noSubmit.length then
          [{ severity := "major", category := "Forms"
             issue := toString noSubmit.length ++ " form(s) missing submit button"
             recommendation := "Add submit buttons to all forms for proper user interaction" }]
        else []
      match m.unlabeled with
      | .error e =>
          { results := [structRes, { testName := "Form Structure Check", passed := false, error := some e }]
            issues := submitIss }
      | .ok inputs =>
          let accIss : List Issue :=
            if 0 < inputs.length then
              [{ severity := "major", category := "Accessibility"
                 issue := toString inputs.length ++ " form input(s) missing labels"
                 recommendation := "Add labels to all form inputs for better accessibility"
                 details := inputs }]
            else []
          { results := [structRes], issues := submitIss ++ accIss }

/-- One viewport of the responsive probe: (horizontal scroll, zero-area
element) on success; a thrown reload fails the viewport without an issue. -/
def respViewportOut (nm widthStr : String) (beh : Except String (Bool × Bool)) :
    Bool × List Issue :=
  match beh with
  | .ok (h, o) =>
      (!h && !o,
       if h then
         [{ severity := "major", category := "Responsive Design"
            issue := "Horizontal scroll detected on " ++ nm ++ " (" ++ widthStr ++ "px)"
            recommendation := "Ensure content fits within viewport width on all device sizes" }]
       else [])
  | .error _ => (false, [])

/-- `runResponsiveTests` over the fixed Mobile/Tablet/Desktop viewports. -/
def runResponsiveTests (m : PageModel) : ProbeOut :=
  let mo := respViewportOut "Mobile" "375" m.respMobile
  let ta := respViewportOut "Tablet" "768" m.respTablet
  let de := respViewportOut "Desktop" "1280" m.respDesktop
  { results := [{ testName := "Responsive Design Test", passed := mo.1 && ta.1 && de.1 }]
    issues := mo.2 ++ ta.2 ++ de.2 }

/-- Character-list membership of `needle` at the front of the haystack. -/
def charsStartWith : List Char → List Char → Bool
  | [], _ => true
  | _ :: _, [] => false
  | a :: ra, b :: rb => a == b && charsStartWith ra rb

/-- Substring search over character lists. -/
def charsContains (needle : List Char) : List Char → Bool
  | [] => charsStartWith needle []
  | b :: rb => charsStartWith needle (b :: rb) || charsContains needle rb

/-- JavaScript `String.prototype.includes`. -/
def strIncludes (s sub : String) : Bool := charsContains sub.data s.data

/-- One step of `runUserFlow`: the step result and whether the step threw
(only a thrown step sets the flow-level failure flag; a `verify` whose
comparison fails and the unhandled `screenshot` action do not). -/
def runStep (n : Nat) (st : FlowStep) (beh : StepBeh) : StepResult × Bool :=
  let base : StepResult := { stepNumber := n, action := st.action, passed := false }
  if st.action = "screenshot" then (base, false)
  else if st.action = "verify" then
    match beh with
    | .ok txt =>
        let p := match txt with
          | some t => strIncludes t (st.expected.getD "undefined")
          | none => false
        ({ base with passed := p, actualValue := txt, expectedValue := st.expected }, false)
    | .error e => ({ base with error := some e }, true)
  else
    match beh with
    | .ok _ => ({ base with passed := true }, false)
    | .error e => ({ base with error := some e }, true)

/-- The step loop of `runUserFlow`: every step executes and is recorded,
whatever earlier steps did; the second component is whether any step threw. -/
def runFlowSteps : Nat → List (FlowStep × StepBeh) → List StepResult × Bool
  | _, [] => ([], false)
  | n, (st, beh) :: rest =>
      let sr := runStep n st beh
      let rec' := runFlowSteps (n + 1) rest
      (sr.1 :: rec'.1, sr.2 || rec'.2)

/-- `runUserFlow`: the flow's `TestResult`. -/
def runUserFlow (nm : String) (steps : List (FlowStep × StepBeh)) : TestResult :=
  let r := runFlowSteps 1 steps
  { testName := "User Flow: " ++ nm, passed := !r.2, steps := r.1 }

/-- The single major issue pushed when a flow failed. -/
def userFlowIssue (nm : String) : Issue :=
  { severity := "major", category := "User Flow"
    issue := "User flow \"" ++ nm ++ "\" failed"
    recommendation := "Review and fix the failing user flow steps" }

/-- Location after a flow: each successful `goto` step navigates. -/
def flowFinalUrl (steps : List (FlowStep × StepBeh)) (c : String) : String :=
  steps.foldl
    (fun cur sb =>
      if sb.1.action = "goto" then
        match sb.2 with
        | .ok _ => sb.1.value.getD ""
        | .error _ => cur
      else cur) c

/-- `assessUIQuality`: small text and missing alt text, each pushed as a
minor `UI/UX` issue; the DOM query is not wrapped in a try, so a thrown
evaluation escapes. -/
def assessUIQuality (m : PageModel) : ProbeOut :=
  match m.uiEval with
  | .error e => { err := some e }
  | .ok (small, noAlt) =>
      let smallIss : List Issue := small.map fun el =>
        { severity := "minor", category := "UI/UX", issue := "Text too small"
          recommendation := "Ensure text is at least 12px for readability"
          details := [el] }
      let altIss : List Issue := noAlt.map fun el =>
        { severity := "minor", category := "UI/UX", issue := "Missing alt text"
          recommendation := "Add descriptive alt text to all images"
          details := [el] }
      { results := [{ testName := "UI Quality Assessment"
                      passed := small.isEmpty && noAlt.isEmpty }]
        issues := smallIss ++ altIss }

/-- `assessPerformance`: load time and heap thresholds; unguarded awaits. -/
def assessPerformance (m : PageModel) : ProbeOut :=
  match m.heap with
  | .error e => { err := some e }
  | .ok heapBytes =>
      match m.loadComplete with
      | .error e => { err := some e }
      | .ok load =>
          let loadIss : List Issue :=
            if 3000 < load then
              [{ severity := "major", category := "Performance"
                 issue := "Slow page load time: " ++ toString load ++ "ms"
                 recommendation := "Optimize images, minify CSS/JS, and reduce server response time" }]
            else []
          let heapIss : List Issue :=
            if 50 * 1024 * 1024 < heapBytes then
              [{ severity := "minor", category := "Performance"
                 issue := "High memory usage: " ++ toString (heapBytes / 1024 / 1024) ++ "MB"
                 recommendation := "Review JavaScript memory usage and look for memory leaks" }]
            else []
          { results := [{ testName := "Performance Assessment"
                          passed := (loadIss ++ heapIss).isEmpty }]
            issues := loadIss ++ heapIss }

/-- The placeholder pushed for the unimplemented `auth` suite. -/
def authResult : TestResult := { testName := "Authentication Tests", passed := true }

inductive SuiteMode
  | basic | auth | forms | navigation | responsive | comprehensive
  deriving DecidableEq

/-- Shared accumulation state of the orchestrator: the `qaResults` and
`issues` arrays, the page location, and a pending uncaught error. -/
structure Acc where
  results : List TestResult
  issues : List Issue
  cur : String
  err : Option String

/-- Run one stage unless an earlier stage threw; its pushes are appended. -/
def runStage (a : Acc) (f : String → ProbeOut × String) : Acc :=
  match a.err with
  | some _ => a
  | none =>
      let r := f a.cur
      { results := a.results ++ r.1.results, issues := a.issues ++ r.1.issues
        cur := r.2, err := r.1.err }

/-- The probe stages selected by the `switch (testSuite)`. -/
def stagesFor (m : PageModel) (url : String) : SuiteMode → List (String → ProbeOut × String)
  | .basic => [fun c => (runBasicTests m, c)]
  | .auth => [fun c => ({ results := [authResult] }, c)]
  | .forms => [fun c => (runFormTests m, c)]
  | .navigation => [fun c => runNavigationTests m url c]
  | .responsive => [fun c => (runResponsiveTests m, c)]
  | .comprehensive =>
      [fun c => (runBasicTests m, c),
       fun c => runNavigationTests m url c,
       fun c => (runFormTests m, c),
       fun c => (runResponsiveTests m, c)]

/-- A custom user flow as one stage. -/
def flowStage (f : Flow) (c : String) : ProbeOut × String :=
  let fr := runUserFlow f.name f.steps
  ({ results := [fr], issues := if fr.passed then [] else [userFlowIssue f.name] },
   flowFinalUrl f.steps c)

/-- State after the connectivity check: its result is pushed first, and a
critical connectivity issue is pushed exactly when it failed. -/
def connAcc (m : PageModel) (url : String) : Acc :=
  { results := [testConnectivity m.connNav]
    issues := if (testConnectivity m.connNav).passed then []
      else [connectivityIssue (testConnectivity m.connNav)]
    cur := match m.connNav with | .ok _ => url | .error _ => "about:blank"
    err := none }

/-- The body of `functionalQATool` after the page exists: connectivity
check first, then the selected suite, then the custom flows, then the
UI-quality and performance assessments. -/
def runSuiteBody (m : PageModel) (url : String) (mode : SuiteMode) (flows : List Flow) : Acc :=
  runStage
    (runStage
      (flows.foldl (fun a f => runStage a (flowStage f))
        ((stagesFor m url mode).foldl runStage (connAcc m url)))
      fun c => (assessUIQuality m, c))
    fun c => (assessPerformance m, c)

/-- The summary object computed over the collected results and issues. -/
structure Summary where
  totalTests : Nat
  passed : Nat
  failed : Nat
  issues : Nat
  criticalIssues : Nat
  majorIssues : Nat
  minorIssues : Nat
  deriving DecidableEq

def mkSummary (qaResults : List TestResult) (issues : List Issue) : Summary :=
  { totalTests := qaResults.length
    passed := (qaResults.filter fun r => r.passed).length
    failed := (qaResults.filter fun r => !r.passed).length
    issues := issues.length
    criticalIssues := (issues.filter fun i => i.severity == "critical").length
    majorIssues := (issues.filter fun i => i.severity == "major").length
    minorIssues := (issues.filter fun i => i.severity == "minor").length }

def criticalBanner : String :=
  "🚨 CRITICAL: Address critical issues immediately - these prevent basic functionality"

def majorBanner : String :=
  "⚠️ MAJOR: Fix major issues that significantly impact user experience"

def minorBanner : String :=
  "📝 MINOR: Consider addressing minor issues for better overall quality"

def focusLine (c : String) (n : Nat) : String :=
  "🔍 Focus on " ++ c ++ ": " ++ toString n ++ " issue(s) found"

def positiveLine : String :=
  "✅ Excellent! No major issues detected. Application appears to be well-built and functional."

/-- One reduce step of the category tally: bump an existing category's
count or append a new singleton entry, preserving insertion order. -/
def bump : List (String × Nat) → String → List (String × Nat)
  | [], c => [(c, 1)]
  | (k, n) :: rest, c => if k == c then (k, n + 1) :: rest else (k, n) :: bump rest c

/-- The `issues.reduce` building per-category counts in first-occurrence
order. -/
def categoryCounts (issues : List Issue) : List (String × Nat) :=
  issues.foldl (fun acc i => bump acc i.category) []

/-- `generateQARecommendations`. -/
def generateQARecommendations (issues : List Issue) (summary : Summary) : List String :=
  (if 0 < summary.criticalIssues then [criticalBanner] else [])
  ++ (if 0 < summary.majorIssues then [majorBanner] else [])
  ++ (if 0 < summary.minorIssues then [minorBanner] else [])
  ++ (categoryCounts issues).map (fun p => focusLine p.1 p.2)
  ++ (if summary.issues == 0 then [positiveLine] else [])

/-- The value returned by the tool: the success payload or the error
envelope from the catch block. -/
inductive QAOutput
  | success (summary : Summary) (qaResults : List TestResult) (issues : List Issue)
      (recommendations : List String)
  | failure (errorMessage : String) (completedTests : Nat) (issuesFound : Nat)
  deriving DecidableEq

/-- One invocation: the returned payload, how many times `browser.close()`
ran in the finally block, and the final page location. -/
structure QARun where
  output : QAOutput
  closeCalls : Nat
  finalUrl : String
  deriving DecidableEq

/-- `functionalQATool`: launch, run the suite body, build the summary; the
catch block builds the error envelope and the finally block closes the
browser exactly when the launch succeeded. -/
def functionalQATool (m : PageModel) (url : String) (mode : SuiteMode) (flows : List Flow) :
    QARun :=
  match m.launchOk with
  | .error e => { output := .failure e 0 0, closeCalls := 0, finalUrl := "about:blank" }
  | .ok _ =>
      match m.newPageOk with
      | .error e => { output := .failure e 0 0, closeCalls := 1, finalUrl := "about:blank" }
      | .ok _ =>
          match m.viewportOk with
          | .error e => { output := .failure e 0 0, closeCalls := 1, finalUrl := "about:blank" }
          | .ok _ =>
              let a := runSuiteBody m url mode flows
              match a.err with
              | some e =>
                  { output := .failure e a.results.length a.issues.length
                    closeCalls := 1, finalUrl := a.cur }
              | none =>
                  let s := mkSummary a.results a.issues
                  { output := .success s a.results a.issues (generateQARecommendations a.issues s)
                    closeCalls := 1, finalUrl := a.cur }

/-! ### Interaction-runner lemmas -/

theorem runStep_snd_eq_error_isSome (n : Nat) (st : FlowStep) (beh : StepBeh) :
    (runStep n st beh).2 = (runStep n st beh).1.error.isSome := by
  unfold runStep
  split
  · rfl
  · split <;> cases beh <;> rfl

theorem runFlowSteps_snd_iff (steps : List (FlowStep × StepBeh)) :
    ∀ n : Nat, (runFlowSteps n steps).2 = true ↔
      ∃ sr ∈ (runFlowSteps n steps).1, sr.error.isSome := by
  induction steps with
  | nil => intro n; simp [runFlowSteps]
  | cons sb rest ih =>
      intro n
      obtain ⟨st, beh⟩ := sb
      simp only [runFlowSteps, Bool.or_eq_true, List.mem_cons]
      rw [runStep_snd_eq_error_isSome]
      constructor
      · rintro (h | h)
        · exact ⟨_, Or.inl rfl, h⟩
        · obtain ⟨sr, hm, he⟩ := (ih (n + 1)).mp h
          exact ⟨sr, Or.inr hm, he⟩
      · rintro ⟨sr, hmem, he⟩
        rcases hmem with hmem | hmem
        · exact Or.inl (hmem ▸ he)
        · exact Or.inr ((ih (n + 1)).mpr ⟨sr, hmem, he⟩)

theorem runFlowSteps_length (steps : List (FlowStep × StepBeh)) :
    ∀ n : Nat, (runFlowSteps n steps).1.length = steps.length := by
  induction steps with
  | nil => intro n; rfl
  | cons sb rest ih =>
      intro n
      obtain ⟨st, beh⟩ := sb
      simp [runFlowSteps, ih]

theorem runFlowSteps_getElem (steps : List (FlowStep × StepBeh)) :
    ∀ (n i : Nat) (st : FlowStep) (beh : StepBeh),
      steps[i]? = some (st, beh) →
      ((runFlowSteps n steps).1)[i]? = some (runStep (n + i) st beh).1 := by
  induction steps with
  | nil => intro n i st beh h; simp at h
  | cons sb rest ih =>
      intro n i st beh h
      obtain ⟨st0, beh0⟩ := sb
      cases i with
      | zero =>
          simp only [List.getElem?_cons_zero, Option.some.injEq, Prod.mk.injEq] at h
          obtain ⟨h1, h2⟩ := h
          subst h1; subst h2
          simp [runFlowSteps]
      | succ j =>
          simp only [List.getElem?_cons_succ] at h
          have := ih (n + 1) j st beh h
          simpa [runFlowSteps, Nat.add_assoc, Nat.add_comm 1 j] using this

/-- Claim C2 (amended): the flow-level `passed` is false if and only if at
least one step of the flow threw a tool-level error (its recorded `error`
is non-null); a `verify` whose comparison merely fails leaves the
flow-level `passed` unchanged. -/
theorem flow_passed_false_iff_step_threw (nm : String)
    (steps : List (FlowStep × StepBeh)) :
    (runUserFlow nm steps).passed = false ↔
      ∃ sr ∈ (runUserFlow nm steps).steps, sr.error.isSome := by
  show (!(runFlowSteps 1 steps).2) = false ↔
    ∃ sr ∈ (runFlowSteps 1 steps).1, sr.error.isSome
  rw [Bool.not_eq_false']
  exact runFlowSteps_snd_iff steps 1

/-- Concrete flow for the C2 counterexample: one `verify` step whose
element is found but whose text does not contain the expected substring. -/
def c2Steps : List (FlowStep × StepBeh) :=
  [({ action := "verify", selector := some "#success-message", expected := some "Account created" },
    .ok (some "Signup failed"))]

/-- Claim C2 counterexample: a flow whose only step is a `verify` that
fails without throwing has the step recorded as failed but the flow-level
`passed` still true, contradicting the claimed equivalence. -/
theorem c2_counterexample :
    (runUserFlow "User Signup Flow" c2Steps).passed = true ∧
      (runUserFlow "User Signup Flow" c2Steps).steps.map (fun s => s.passed) = [false] := by
  constructor <;> rfl

/-- Concrete flow for the C3 counterexample: a thrown `goto` followed by a
`click` the page would accept. -/
def c3Steps : List (FlowStep × StepBeh) :=
  [({ action := "goto", value := some "http://localhost:3000/dashboard" },
    .error "net::ERR_CONNECTION_REFUSED"),
   ({ action := "click", selector := some "#submit" }, .ok none)]

/-- Claim C3 counterexample: after a failing navigation step, the next
step still executes and is recorded (and here passes), so the remainder of
the flow is not skipped. -/
theorem c3_counterexample :
    ((runUserFlow "nav flow" c3Steps).steps.map fun s => (s.passed, s.error.isSome)) =
      [(false, true), (true, false)] := rfl

/-- Claim C3 (amended): every step of a flow is executed and produces a
recorded step result, regardless of earlier failures and also when the
failing step was a navigation: the result of step `i` depends only on that
step and the page's behaviour at it. -/
theorem flow_executes_every_step (nm : String) (steps : List (FlowStep × StepBeh)) :
    (runUserFlow nm steps).steps.length = steps.length ∧
      ∀ (i : Nat) (st : FlowStep) (beh : StepBeh),
        steps[i]? = some (st, beh) →
        (runUserFlow nm steps).steps[i]? = some (runStep (1 + i) st beh).1 := by
  refine ⟨runFlowSteps_length steps 1, ?_⟩
  intro i st beh h
  exact runFlowSteps_getElem steps 1 i st beh h

/-- Witness for the amended C3 theorem at a concrete flow. -/
theorem flow_executes_every_step_witness :
    c3Steps[1]? = some ({ action := "click", selector := some "#submit" }, .ok none) ∧
      (runUserFlow "nav flow" c3Steps).steps[1]? =
        some (runStep 2 ({ action := "click", selector := some "#submit" }) (.ok none)).1 := by
  refine ⟨rfl, ?_⟩
  exact (flow_executes_every_step "nav flow" c3Steps).2 1
    ({ action := "click", selector := some "#submit" }) (.ok none) rfl

/-- Witness for the amended C2 theorem at a concrete flow with a thrown
step. -/
theorem flow_passed_false_iff_step_threw_witness :
    ((runUserFlow "nav flow" c3Steps).passed = false ↔
      ∃ sr ∈ (runUserFlow "nav flow" c3Steps).steps, sr.error.isSome) ∧
      (runUserFlow "nav flow" c3Steps).passed = false := by
  refine ⟨flow_passed_false_iff_step_threw "nav flow" c3Steps, rfl⟩

/-! ### Session cleanup and summary counts -/

/-- Claim C5: whenever the browser launch succeeded, the finally block
closes the session exactly once, both on the success path and when any
probe, flow or assessment threw. -/
theorem close_called_exactly_once (m : PageModel) (url : String) (mode : SuiteMode)
    (flows : List Flow) (h : m.launchOk = .ok ()) :
    (functionalQATool m url mode flows).closeCalls = 1 := by
  unfold functionalQATool
  rw [h]
  cases hnp : m.newPageOk with
  | error e => rfl
  | ok u =>
      cases hvp : m.viewportOk with
      | error e => rfl
      | ok v =>
          cases herr : (runSuiteBody m url mode flows).err with
          | none => simp [herr]
          | some e => simp [herr]

/-- A model whose performance assessment throws, to exercise the failure
exit path. -/
def perfThrowModel : PageModel := { heap := .error "Protocol error: metrics" }

/-- Witness for C5 at two concrete inputs: a fully successful run and a
run whose performance assessment throws; both close the browser once. -/
theorem close_called_exactly_once_witness :
    (functionalQATool {} "http://localhost:3000" .comprehensive []).closeCalls = 1 ∧
      (functionalQATool perfThrowModel "http://localhost:3000" .basic []).closeCalls = 1 := by
  exact ⟨close_called_exactly_once {} "http://localhost:3000" .comprehensive [] rfl,
    close_called_exactly_once perfThrowModel "http://localhost:3000" .basic [] rfl⟩

theorem length_filter_passed_add_not (l : List TestResult) :
    (l.filter fun r => r.passed).length + (l.filter fun r => !r.passed).length = l.length := by
  induction l with
  | nil => rfl
  | cons r t ih =>
      cases hr : r.passed <;> simp [List.filter_cons, hr] <;> omega

/-- Claim C6: every produced summary satisfies
`passed + failed = totalTests`. -/
theorem summary_passed_add_failed (m : PageModel) (url : String) (mode : SuiteMode)
    (flows : List Flow) (s : Summary) (qaResults : List TestResult)
    (issues : List Issue) (recs : List String)
    (h : (functionalQATool m url mode flows).output = .success s qaResults issues recs) :
    s.passed + s.failed = s.totalTests := by
  unfold functionalQATool at h
  cases hl : m.launchOk <;> rw [hl] at h
  · exact absurd h (by simp)
  cases hnp : m.newPageOk <;> rw [hnp] at h
  · exact absurd h (by simp)
  cases hvp : m.viewportOk <;> rw [hvp] at h
  · exact absurd h (by simp)
  cases herr : (runSuiteBody m url mode flows).err <;> simp [herr] at h
  obtain ⟨hs, -, -, -⟩ := h
  rw [← hs]
  exact length_filter_passed_add_not _

/-- Witness for C6 at a concrete successful run. -/
theorem summary_passed_add_failed_witness :
    ∃ (s : Summary) (qaResults : List TestResult) (issues : List Issue) (recs : List String),
      (functionalQATool {} "http://localhost:3000" .basic []).output =
        .success s qaResults issues recs ∧ s.passed + s.failed = s.totalTests := by
  refine ⟨mkSummary (runSuiteBody {} "http://localhost:3000" .basic []).results
      (runSuiteBody {} "http://localhost:3000" .basic []).issues,
    (runSuiteBody {} "http://localhost:3000" .basic []).results,
    (runSuiteBody {} "http://localhost:3000" .basic []).issues,
    generateQARecommendations (runSuiteBody {} "http://localhost:3000" .basic []).issues
      (mkSummary (runSuiteBody {} "http://localhost:3000" .basic []).results
        (runSuiteBody {} "http://localhost:3000" .basic []).issues), rfl, ?_⟩
  exact summary_passed_add_failed {} "http://localhost:3000" .basic [] _ _ _ _ rfl

/-! ### Issue-category accounting across the orchestrator -/

def isConnIssue (i : Issue) : Bool := i.category == "Connectivity"

theorem countP_conn_basic (m : PageModel) :
    (runBasicTests m).issues.countP isConnIssue = 0 := by
  unfold runBasicTests ProbeOut.append
  cases m.title <;> cases m.brokenImages <;> cases m.basicWait <;>
    simp [isConnIssue] <;> (repeat' split) <;> simp [isConnIssue]

theorem countP_conn_nav (m : PageModel) (url c : String) :
    ((runNavigationTests m url c).1.issues).countP isConnIssue = 0 := by
  unfold runNavigationTests
  cases m.navLinks with
  | error e => rfl
  | ok links =>
      cases m.gotoUrl url <;> simp [isConnIssue] <;> split <;> simp [isConnIssue]

theorem countP_conn_forms (m : PageModel) :
    (runFormTests m).issues.countP isConnIssue = 0 := by
  unfold runFormTests
  cases m.forms with
  | error e => rfl
  | ok fs =>
      cases m.unlabeled <;> simp [isConnIssue] <;> (repeat' split) <;> simp [isConnIssue]

theorem countP_conn_respViewport (nm w : String) (beh : Except String (Bool × Bool)) :
    ((respViewportOut nm w beh).2).countP isConnIssue = 0 := by
  unfold respViewportOut
  cases beh with
  | error e => rfl
  | ok p => obtain ⟨h, o⟩ := p; split <;> simp [isConnIssue]

theorem countP_conn_responsive (m : PageModel) :
    (runResponsiveTests m).issues.countP isConnIssue = 0 := by
  unfold runResponsiveTests
  simp [List.countP_append, countP_conn_respViewport]

theorem countP_conn_flowStage (f : Flow) (c : String) :
    ((flowStage f c).1.issues).countP isConnIssue = 0 := by
  unfold flowStage
  dsimp only
  split <;> simp [isConnIssue, userFlowIssue]

theorem countP_conn_ui (m : PageModel) :
    (assessUIQuality m).issues.countP isConnIssue = 0 := by
  unfold assessUIQuality
  cases m.uiEval with
  | error e => rfl
  | ok pr =>
      obtain ⟨small, noAlt⟩ := pr
      rw [List.countP_eq_zero]
      intro i hi
      simp only [List.mem_append, List.mem_map] at hi
      rcases hi with ⟨el, -, rfl⟩ | ⟨el, -, rfl⟩ <;> simp [isConnIssue]

theorem countP_conn_perf (m : PageModel) :
    (assessPerformance m).issues.countP isConnIssue = 0 := by
  unfold assessPerformance
  cases m.heap with
  | error e => rfl
  | ok hp =>
      cases m.loadComplete with
      | error e => rfl
      | ok load => simp [isConnIssue] <;> (repeat' split) <;> simp [isConnIssue]

theorem countP_conn_stagesFor (m : PageModel) (url : String) (mode : SuiteMode) :
    ∀ f ∈ stagesFor m url mode, ∀ c, ((f c).1.issues).countP isConnIssue = 0 := by
  cases mode <;> simp only [stagesFor, List.mem_cons, List.mem_singleton, List.not_mem_nil] <;>
    intro f hf <;> intro c
  · rcases hf with rfl | h
    · exact countP_conn_basic m
    · cases h
  · rcases hf with rfl | h
    · rfl
    · cases h
  · rcases hf with rfl | h
    · exact countP_conn_forms m
    · cases h
  · rcases hf with rfl | h
    · exact countP_conn_nav m url c
    · cases h
  · rcases hf with rfl | h
    · exact countP_conn_responsive m
    · cases h
  · rcases hf with rfl | rfl | rfl | rfl | h
    · exact countP_conn_basic m
    · exact countP_conn_nav m url c
    · exact countP_conn_forms m
    · exact countP_conn_responsive m
    · cases h

/-- `runStage` only appends to the results and issues arrays. -/
theorem runStage_ext (a : Acc) (f : String → ProbeOut × String) :
    ∃ rs is, (runStage a f).results = a.results ++ rs ∧
      (runStage a f).issues = a.issues ++ is := by
  unfold runStage
  cases a.err with
  | some e => exact ⟨[], [], (List.append_nil _).symm, (List.append_nil _).symm⟩
  | none => exact ⟨_, _, rfl, rfl⟩

theorem foldl_runStage_ext (stages : List (String → ProbeOut × String)) :
    ∀ a : Acc, ∃ rs is, (stages.foldl runStage a).results = a.results ++ rs ∧
      (stages.foldl runStage a).issues = a.issues ++ is := by
  induction stages with
  | nil => intro a; exact ⟨[], [], (List.append_nil _).symm, (List.append_nil _).symm⟩
  | cons f rest ih =>
      intro a
      obtain ⟨rs1, is1, h1, h2⟩ := runStage_ext a f
      obtain ⟨rs2, is2, h3, h4⟩ := ih (runStage a f)
      exact ⟨rs1 ++ rs2, is1 ++ is2,
        by rw [List.foldl_cons, h3, h1, List.append_assoc],
        by rw [List.foldl_cons, h4, h2, List.append_assoc]⟩

theorem countP_conn_runStage (a : Acc) (f : String → ProbeOut × String)
    (hf : ∀ c, ((f c).1.issues).countP isConnIssue = 0) :
    (runStage a f).issues.countP isConnIssue = a.issues.countP isConnIssue := by
  unfold runStage
  cases a.err with
  | some e => rfl
  | none => simp [List.countP_append, hf]

theorem countP_conn_foldl (stages : List (String → ProbeOut × String)) :
    ∀ a : Acc, (∀ f ∈ stages, ∀ c, ((f c).1.issues).countP isConnIssue = 0) →
      ((stages.foldl runStage a).issues.countP isConnIssue) = a.issues.countP isConnIssue := by
  induction stages with
  | nil => intro a h; rfl
  | cons f rest ih =>
      intro a h
      rw [List.foldl_cons, ih _ (fun g hg c => h g (List.mem_cons_of_mem f hg) c),
        countP_conn_runStage a f (h f (List.mem_cons_self f rest))]

/-- The whole suite body only appends after the connectivity check. -/
theorem runSuiteBody_ext (m : PageModel) (url : String) (mode : SuiteMode) (flows : List Flow) :
    ∃ rs is,
      (runSuiteBody m url mode flows).results = testConnectivity m.connNav :: rs ∧
      (runSuiteBody m url mode flows).issues =
        (if (testConnectivity m.connNav).passed then []
          else [connectivityIssue (testConnectivity m.connNav)]) ++ is := by
  unfold runSuiteBody
  obtain ⟨rs1, is1, h1, h1i⟩ := foldl_runStage_ext (stagesFor m url mode) (connAcc m url)
  rw [← List.foldl_map flowStage runStage flows]
  obtain ⟨rs2, is2, h2, h2i⟩ :=
    foldl_runStage_ext (flows.map flowStage) ((stagesFor m url mode).foldl runStage (connAcc m url))
  obtain ⟨rs3, is3, h3, h3i⟩ :=
    runStage_ext ((flows.map flowStage).foldl runStage
      ((stagesFor m url mode).foldl runStage (connAcc m url))) (fun c => (assessUIQuality m, c))
  obtain ⟨rs4, is4, h4, h4i⟩ :=
    runStage_ext (runStage ((flows.map flowStage).foldl runStage
      ((stagesFor m url mode).foldl runStage (connAcc m url))) (fun c => (assessUIQuality m, c)))
      (fun c => (assessPerformance m, c))
  refine ⟨rs1 ++ rs2 ++ rs3 ++ rs4, is1 ++ is2 ++ is3 ++ is4, ?_, ?_⟩
  · rw [h4, h3, h2, h1]
    simp [connAcc, List.append_assoc]
  · rw [h4i, h3i, h2i, h1i]
    simp [connAcc, List.append_assoc]

/-- Exactly one connectivity-category issue is ever produced, and only
when the connectivity check failed. -/
theorem countP_conn_runSuiteBody (m : PageModel) (url : String) (mode : SuiteMode)
    (flows : List Flow) :
    (runSuiteBody m url mode flows).issues.countP isConnIssue =
      (if (testConnectivity m.connNav).passed then 0 else 1) := by
  unfold runSuiteBody
  rw [← List.foldl_map flowStage runStage flows]
  rw [countP_conn_runStage _ _ (fun c => countP_conn_perf m),
    countP_conn_runStage _ _ (fun c => countP_conn_ui m),
    countP_conn_foldl _ _ ?flowsOk,
    countP_conn_foldl _ _ (countP_conn_stagesFor m url mode)]
  case flowsOk =>
    intro g hg c
    obtain ⟨f, -, rfl⟩ := List.mem_map.mp hg
    exact countP_conn_flowStage f c
  unfold connAcc
  split <;> simp [connectivityIssue, isConnIssue]

/-- Inversion of a successful invocation: the payload is built from the
suite body, which did not throw. -/
theorem output_success_inv (m : PageModel) (url : String) (mode : SuiteMode)
    (flows : List Flow) (s : Summary) (qaResults : List TestResult)
    (issues : List Issue) (recs : List String)
    (h : (functionalQATool m url mode flows).output = .success s qaResults issues recs) :
    qaResults = (runSuiteBody m url mode flows).results ∧
      issues = (runSuiteBody m url mode flows).issues ∧
      s = mkSummary (runSuiteBody m url mode flows).results (runSuiteBody m url mode flows).issues ∧
      (runSuiteBody m url mode flows).err = none := by
  unfold functionalQATool at h
  cases hl : m.launchOk <;> rw [hl] at h
  · exact absurd h (by simp)
  cases hnp : m.newPageOk <;> rw [hnp] at h
  · exact absurd h (by simp)
  cases hvp : m.viewportOk <;> rw [hvp] at h
  · exact absurd h (by simp)
  cases herr : (runSuiteBody m url mode flows).err <;> simp [herr] at h
  obtain ⟨hs, hr, hi, -⟩ := h
  exact ⟨hr.symm, hi.symm, hs.symm, rfl⟩

/-- A performance assessment that did not throw pushes exactly one result,
named after itself. -/
theorem perf_results (m : PageModel) (h : (assessPerformance m).err = none) :
    ∃ pr, (assessPerformance m).results = [pr] ∧ pr.testName = "Performance Assessment" := by
  unfold assessPerformance at h ⊢
  cases hh : m.heap <;> rw [hh] at h
  · simp at h
  cases hl2 : m.loadComplete <;> rw [hl2] at h
  · simp at h
  exact ⟨_, rfl, rfl⟩

/-- Inversion of a stage that did not throw. -/
theorem runStage_err_none (a : Acc) (f : String → ProbeOut × String)
    (h : (runStage a f).err = none) :
    a.err = none ∧ (f a.cur).1.err = none ∧
      (runStage a f).results = a.results ++ (f a.cur).1.results := by
  unfold runStage at h ⊢
  cases ha : a.err <;> rw [ha] at h
  · dsimp only at h
    exact ⟨rfl, h, rfl⟩
  · dsimp only at h
    rw [ha] at h
    exact Option.noConfusion h

/-! ### Connectivity failure behaviour (claims C1 and C9) -/

def outResults : QAOutput → List TestResult
  | .success _ r _ _ => r
  | .failure _ _ _ => []

def outIssues : QAOutput → List Issue
  | .success _ _ i _ => i
  | .failure _ _ _ => []

/-- A target whose initial navigation throws; every other page operation
behaves benignly. -/
def c1Model : PageModel :=
  { connNav := .error "net::ERR_CONNECTION_REFUSED at http://localhost:3000" }

/-- Claim C1 counterexample: when the initial navigation fails, the
orchestrator does not short-circuit — the comprehensive suite still runs
every probe and assessment, so the summary contains eight probe-generated
TestResults beyond the connectivity test, contradicting the claim that
none appear. -/
theorem c1_counterexample :
    (testConnectivity c1Model.connNav).passed = false ∧
      (outResults (functionalQATool c1Model "http://localhost:3000" .comprehensive []).output).map
          TestResult.testName =
        ["Connectivity Test", "Page Title Check", "Broken Images Check",
         "JavaScript Errors Check", "Navigation Links Test", "Form Structure Check",
         "Responsive Design Test", "UI Quality Assessment", "Performance Assessment"] := by
  constructor <;> rfl

/-- Claim C1 (amended): if the initial connectivity navigation fails, the
issues of the resulting QASummary contain exactly one connectivity-category
IssueRecord and it is critical, but the remaining probes still execute: the
connectivity result is first and downstream probe-generated TestResults
(through the final performance assessment) follow it. -/
theorem connectivity_failure_single_issue (m : PageModel) (url : String) (mode : SuiteMode)
    (flows : List Flow) (s : Summary) (qaResults : List TestResult)
    (issues : List Issue) (recs : List String)
    (hrun : (functionalQATool m url mode flows).output = .success s qaResults issues recs)
    (hconn : (testConnectivity m.connNav).passed = false) :
    issues.countP isConnIssue = 1 ∧
      (∀ i ∈ issues, isConnIssue i = true → i.severity = "critical") ∧
      qaResults.head? = some (testConnectivity m.connNav) ∧
      ∃ r ∈ qaResults, r.testName = "Performance Assessment" := by
  obtain ⟨hr, hi, -, herr⟩ := output_success_inv m url mode flows s qaResults issues recs hrun
  subst hr; subst hi
  refine ⟨?_, ?_, ?_, ?_⟩
  · rw [countP_conn_runSuiteBody]
    simp [hconn]
  · intro i himem hic
    obtain ⟨rs, is, -, hiss⟩ := runSuiteBody_ext m url mode flows
    have hcount := countP_conn_runSuiteBody m url mode flows
    rw [hiss, if_neg (by simp [hconn])] at himem hcount
    rw [if_neg (by simp [hconn])] at hcount
    rw [List.countP_append] at hcount
    have h1 : List.countP isConnIssue [connectivityIssue (testConnectivity m.connNav)] = 1 := by
      simp [connectivityIssue, isConnIssue]
    have h0 : List.countP isConnIssue is = 0 := by omega
    rcases List.mem_append.mp himem with hm | hm
    · rcases List.mem_singleton.mp hm with rfl
      rfl
    · exact absurd hic (by simpa using List.countP_eq_zero.mp h0 i hm)
  · obtain ⟨rs, is, hres, -⟩ := runSuiteBody_ext m url mode flows
    rw [hres]; rfl
  · unfold runSuiteBody at herr ⊢
    obtain ⟨-, hperr, hresults⟩ := runStage_err_none _ _ herr
    obtain ⟨pr, hpr, hname⟩ := perf_results m hperr
    refine ⟨pr, ?_, hname⟩
    rw [hresults]
    refine List.mem_append_right _ ?_
    show pr ∈ (assessPerformance m).results
    rw [hpr]
    exact List.mem_singleton_self pr

/-- Witness for the amended C1 theorem at a concrete failing target. -/
theorem connectivity_failure_single_issue_witness :
    (runSuiteBody c1Model "http://localhost:3000" .comprehensive []).issues.countP isConnIssue = 1 ∧
      (runSuiteBody c1Model "http://localhost:3000" .comprehensive []).results.head? =
        some (testConnectivity c1Model.connNav) := by
  have h := connectivity_failure_single_issue c1Model "http://localhost:3000" .comprehensive []
    (mkSummary (runSuiteBody c1Model "http://localhost:3000" .comprehensive []).results
      (runSuiteBody c1Model "http://localhost:3000" .comprehensive []).issues)
    (runSuiteBody c1Model "http://localhost:3000" .comprehensive []).results
    (runSuiteBody c1Model "http://localhost:3000" .comprehensive []).issues
    (generateQARecommendations (runSuiteBody c1Model "http://localhost:3000" .comprehensive []).issues
      (mkSummary (runSuiteBody c1Model "http://localhost:3000" .comprehensive []).results
        (runSuiteBody c1Model "http://localhost:3000" .comprehensive []).issues))
    rfl rfl
  exact ⟨h.1, h.2.2.1⟩

/-- A target answering the initial navigation with HTTP 204 (a 2xx
status). -/
def c9Model : PageModel := { connNav := .ok (some 204) }

/-- Claim C9 counterexample: a 204 response — a 2xx status — fails the
connectivity check and records a critical connectivity issue, contradicting
the claim that every 2xx/3xx status passes with no issue recorded. -/
theorem c9_counterexample :
    testConnectivity (Except.ok (some 204)) =
      { testName := "Connectivity Test", passed := false, error := some "HTTP 204" } ∧
      (runSuiteBody c9Model "http://localhost:3000" .basic []).issues.countP isConnIssue = 1 := by
  constructor <;> rfl

/-- Claim C9 (amended): the connectivity check passes exactly when the
initial navigation returns a response with status exactly 200; any other
status (including other 2xx and all 3xx) or a thrown navigation fails it,
and a produced QASummary records one connectivity issue exactly when the
check failed. -/
theorem connectivity_passes_iff_status_200 (m : PageModel) (url : String) (mode : SuiteMode)
    (flows : List Flow) (s : Summary) (qaResults : List TestResult)
    (issues : List Issue) (recs : List String)
    (hrun : (functionalQATool m url mode flows).output = .success s qaResults issues recs) :
    ((testConnectivity m.connNav).passed = true ↔ m.connNav = Except.ok (some 200)) ∧
      issues.countP isConnIssue = (if (testConnectivity m.connNav).passed then 0 else 1) := by
  obtain ⟨-, hi, -, -⟩ := output_success_inv m url mode flows s qaResults issues recs hrun
  subst hi
  refine ⟨?_, countP_conn_runSuiteBody m url mode flows⟩
  cases hn : m.connNav with
  | ok resp => unfold testConnectivity; simp
  | error e => unfold testConnectivity; simp

/-- Witness for the amended C9 theorem at a concrete passing target. -/
theorem connectivity_passes_iff_status_200_witness :
    ((testConnectivity ({} : PageModel).connNav).passed = true ↔
      ({} : PageModel).connNav = Except.ok (some 200)) ∧
      (runSuiteBody {} "http://localhost:3000" .basic []).issues.countP isConnIssue =
        (if (testConnectivity ({} : PageModel).connNav).passed then 0 else 1) := by
  exact connectivity_passes_iff_status_200 {} "http://localhost:3000" .basic []
    (mkSummary (runSuiteBody {} "http://localhost:3000" .basic []).results
      (runSuiteBody {} "http://localhost:3000" .basic []).issues)
    (runSuiteBody {} "http://localhost:3000" .basic []).results
    (runSuiteBody {} "http://localhost:3000" .basic []).issues
    (generateQARecommendations (runSuiteBody {} "http://localhost:3000" .basic []).issues
      (mkSummary (runSuiteBody {} "http://localhost:3000" .basic []).results
        (runSuiteBody {} "http://localhost:3000" .basic []).issues))
    rfl

/-! ### Navigation probe teardown (claim C7) -/

theorem testLink_ok200 (m : PageModel) (a : LinkAcc) (href : String)
    (h : m.gotoUrl href = .ok (some 200)) :
    testLink m a href = { a with working := a.working + 1, cur := href } := by
  unfold testLink
  rw [h]
  simp

theorem testLink_broken (m : PageModel) (a : LinkAcc) (href : String) (resp : Option Nat)
    (h : m.gotoUrl href = .ok resp) (hne : resp ≠ some 200) :
    testLink m a href =
      { a with broken := a.broken + 1, details := a.details ++ [href], cur := href } := by
  unfold testLink
  rw [h]
  simp [hne]

/-- Claim C7: against a page with three internal links answering 200, 200
and 404, the navigation probe restores the original URL as the final
location and produces exactly one Navigation issue reporting one broken
link. -/
theorem nav_probe_restores_url_and_reports (m : PageModel) (url cur l1 l2 l3 : String)
    (hl : m.navLinks = .ok [l1, l2, l3])
    (h1 : m.gotoUrl l1 = .ok (some 200))
    (h2 : m.gotoUrl l2 = .ok (some 200))
    (h3 : m.gotoUrl l3 = .ok (some 404))
    (hr : m.gotoUrl url = .ok (some 200)) :
    (runNavigationTests m url cur).2 = url ∧
      (runNavigationTests m url cur).1.issues =
        [{ severity := "major", category := "Navigation"
           issue := "1 broken internal link(s) found"
           recommendation := "Fix broken navigation links to improve user experience"
           details := [l3] }] := by
  unfold runNavigationTests
  rw [hl]
  dsimp only
  have htake : List.take 10 [l1, l2, l3] = [l1, l2, l3] := rfl
  rw [htake, List.foldl_cons, List.foldl_cons, List.foldl_cons, List.foldl_nil,
    testLink_ok200 m _ l1 h1, testLink_ok200 m _ l2 h2,
    testLink_broken m _ l3 (some 404) h3 (by simp), hr]
  dsimp only
  constructor
  · rfl
  · rfl

/-- Concrete page for the C7 witness: three internal links, one broken. -/
def c7Model : PageModel :=
  { navLinks := .ok ["http://localhost:3000/a", "http://localhost:3000/b",
      "http://localhost:3000/c"]
    gotoUrl := fun u => if u = "http://localhost:3000/c" then .ok (some 404) else .ok (some 200) }

/-- Witness for C7 at the concrete page. -/
theorem nav_probe_restores_url_and_reports_witness :
    (runNavigationTests c7Model "http://localhost:3000" "http://localhost:3000").2 =
      "http://localhost:3000" ∧
      (runNavigationTests c7Model "http://localhost:3000" "http://localhost:3000").1.issues =
        [{ severity := "major", category := "Navigation"
           issue := "1 broken internal link(s) found"
           recommendation := "Fix broken navigation links to improve user experience"
           details := ["http://localhost:3000/c"] }] := by
  exact nav_probe_restores_url_and_reports c7Model "http://localhost:3000" "http://localhost:3000"
    "http://localhost:3000/a" "http://localhost:3000/b" "http://localhost:3000/c"
    rfl rfl rfl rfl rfl

/-! ### Accessibility classification (claim C8) -/

/-- Concrete page for the C8 counterexample: two images without alt text
and one unlabeled input. -/
def c8Model : PageModel :=
  { forms := .ok []
    unlabeled := .ok ["input[0]"]
    uiEval := .ok ([], ["img[0]", "img[1]"]) }

/-- Claim C8 counterexample: the two missing-alt images are classified
with category `UI/UX`, not `Accessibility`, so no minor Accessibility
finding exists for them. -/
theorem c8_counterexample :
    ((runFormTests c8Model).issues ++ (assessUIQuality c8Model).issues).map
        (fun i => (i.severity, i.category)) =
      [("major", "Accessibility"), ("minor", "UI/UX"), ("minor", "UI/UX")] ∧
      ((runFormTests c8Model).issues ++ (assessUIQuality c8Model).issues).countP
        (fun i => i.severity == "minor" && i.category == "Accessibility") = 0 := by
  constructor <;> rfl

/-- Claim C8 (amended): a page with 2 images missing alt text and 1 input
missing both label and accessible name yields 3 findings: one major
`Accessibility` issue aggregating the unlabeled input with count 1, and
one minor issue per missing-alt image whose category is `UI/UX`. -/
theorem accessibility_findings_classification (m : PageModel) (inp img1 img2 : String)
    (fs : List Bool) (hforms : m.forms = .ok fs) (hsub : fs.all (fun b => b) = true)
    (hun : m.unlabeled = .ok [inp]) (hui : m.uiEval = .ok ([], [img1, img2])) :
    (runFormTests m).issues =
      [{ severity := "major", category := "Accessibility"
         issue := "1 form input(s) missing labels"
         recommendation := "Add labels to all form inputs for better accessibility"
         details := [inp] }] ∧
      (assessUIQuality m).issues =
        [{ severity := "minor", category := "UI/UX", issue := "Missing alt text"
           recommendation := "Add descriptive alt text to all images", details := [img1] },
         { severity := "minor", category := "UI/UX", issue := "Missing alt text"
           recommendation := "Add descriptive alt text to all images", details := [img2] }] := by
  constructor
  · unfold runFormTests
    rw [hforms, hun]
    have hnil : fs.filter (fun b => !b) = [] := by
      rw [List.filter_eq_nil]
      intro b hb
      simp [List.all_eq_true.mp hsub b hb]
    simp [hnil]
    rfl
  · unfold assessUIQuality
    rw [hui]
    simp

/-- Witness for the amended C8 theorem at the concrete page. -/
theorem accessibility_findings_classification_witness :
    (runFormTests c8Model).issues =
      [{ severity := "major", category := "Accessibility"
         issue := "1 form input(s) missing labels"
         recommendation := "Add labels to all form inputs for better accessibility"
         details := ["input[0]"] }] ∧
      (assessUIQuality c8Model).issues =
        [{ severity := "minor", category := "UI/UX", issue := "Missing alt text"
           recommendation := "Add descriptive alt text to all images", details := ["img[0]"] },
         { severity := "minor", category := "UI/UX", issue := "Missing alt text"
           recommendation := "Add descriptive alt text to all images", details := ["img[1]"] }] := by
  exact accessibility_findings_classification c8Model "input[0]" "img[0]" "img[1]" []
    rfl rfl rfl rfl

/-! ### Execution order of the comprehensive suite (claim C4) -/

theorem runStage_run (a : Acc) (f : String → ProbeOut × String) (ha : a.err = none) :
    (runStage a f).results = a.results ++ (f a.cur).1.results ∧
      (runStage a f).err = (f a.cur).1.err := by
  unfold runStage
  rw [ha]
  exact ⟨rfl, rfl⟩

theorem testConnectivity_name (nav : Except String (Option Nat)) :
    (testConnectivity nav).testName = "Connectivity Test" := by
  unfold testConnectivity
  cases nav <;> rfl

theorem basic_names (m : PageModel) (hbw : ∃ u, m.basicWait = .ok u) :
    (runBasicTests m).results.map TestResult.testName =
      ["Page Title Check", "Broken Images Check", "JavaScript Errors Check"] ∧
      (runBasicTests m).err = none := by
  obtain ⟨u, hu⟩ := hbw
  unfold runBasicTests ProbeOut.append
  rw [hu]
  cases m.title <;> cases m.brokenImages <;> simp [Option.orElse]

theorem nav_names (m : PageModel) (url c : String) (hnl : ∃ ls, m.navLinks = .ok ls)
    (hg : ∃ r, m.gotoUrl url = .ok r) :
    ((runNavigationTests m url c).1.results.map TestResult.testName =
      ["Navigation Links Test"]) ∧ (runNavigationTests m url c).1.err = none := by
  obtain ⟨ls, hls⟩ := hnl
  obtain ⟨r, hgr⟩ := hg
  unfold runNavigationTests
  rw [hls]
  dsimp only
  rw [hgr]
  exact ⟨rfl, rfl⟩

theorem forms_names (m : PageModel) (hf : ∃ fs, m.forms = .ok fs)
    (hu : ∃ ins, m.unlabeled = .ok ins) :
    ((runFormTests m).results.map TestResult.testName = ["Form Structure Check"]) ∧
      (runFormTests m).err = none := by
  obtain ⟨fs, hfs⟩ := hf
  obtain ⟨ins, hins⟩ := hu
  unfold runFormTests
  rw [hfs]
  dsimp only
  rw [hins]
  exact ⟨rfl, rfl⟩

theorem resp_names (m : PageModel) :
    ((runResponsiveTests m).results.map TestResult.testName = ["Responsive Design Test"]) ∧
      (runResponsiveTests m).err = none :=
  ⟨rfl, rfl⟩

theorem ui_names (m : PageModel) (hui : ∃ p, m.uiEval = .ok p) :
    ((assessUIQuality m).results.map TestResult.testName = ["UI Quality Assessment"]) ∧
      (assessUIQuality m).err = none := by
  obtain ⟨p, hp⟩ := hui
  obtain ⟨s1, s2⟩ := p
  unfold assessUIQuality
  rw [hp]
  exact ⟨rfl, rfl⟩

theorem perf_names (m : PageModel) (hh : ∃ n, m.heap = .ok n)
    (hlc : ∃ n, m.loadComplete = .ok n) :
    ((assessPerformance m).results.map TestResult.testName = ["Performance Assessment"]) ∧
      (assessPerformance m).err = none := by
  obtain ⟨n1, h1⟩ := hh
  obtain ⟨n2, h2⟩ := hlc
  unfold assessPerformance
  rw [h1]
  dsimp only
  rw [h2]
  exact ⟨rfl, rfl⟩

theorem flows_fold_names (flows : List Flow) :
    ∀ a : Acc, a.err = none →
      (flows.foldl (fun a f => runStage a (flowStage f)) a).results =
        a.results ++ flows.map (fun f => runUserFlow f.name f.steps) ∧
      (flows.foldl (fun a f => runStage a (flowStage f)) a).err = none := by
  induction flows with
  | nil => intro a ha; exact ⟨(List.append_nil _).symm, ha⟩
  | cons f rest ih =>
      intro a ha
      rw [List.foldl_cons]
      obtain ⟨hres, herr⟩ := runStage_run a (flowStage f) ha
      have herr2 : (runStage a (flowStage f)).err = none := by rw [herr]; rfl
      obtain ⟨hres2, herr3⟩ := ih _ herr2
      refine ⟨?_, herr3⟩
      rw [hres2, hres]
      have hfl : (flowStage f a.cur).1.results = [runUserFlow f.name f.steps] := rfl
      rw [hfl, List.append_assoc]
      rfl

theorem map_flow_names (flows : List Flow) :
    (flows.map (fun f => runUserFlow f.name f.steps)).map TestResult.testName =
      flows.map (fun f => "User Flow: " ++ f.name) := by
  rw [List.map_map]
  rfl

/-- Claim C4 (amended): the comprehensive suite executes connectivity
first, then the basic, navigation, forms and responsive probes in that
fixed order, then the caller-supplied custom flows, and finally the
UI-quality and performance assessments last; the TestResult sequence
reflects this order. -/
theorem comprehensive_executes_in_order (m : PageModel) (url : String) (flows : List Flow)
    (hbw : ∃ u, m.basicWait = .ok u)
    (hnl : ∃ ls, m.navLinks = .ok ls)
    (hg : ∃ r, m.gotoUrl url = .ok r)
    (hf : ∃ fs, m.forms = .ok fs)
    (hu : ∃ ins, m.unlabeled = .ok ins)
    (hui : ∃ p, m.uiEval = .ok p)
    (hh : ∃ n, m.heap = .ok n)
    (hlc : ∃ n, m.loadComplete = .ok n) :
    (runSuiteBody m url .comprehensive flows).results.map TestResult.testName =
      ["Connectivity Test", "Page Title Check", "Broken Images Check",
       "JavaScript Errors Check", "Navigation Links Test", "Form Structure Check",
       "Responsive Design Test"]
      ++ flows.map (fun f => "User Flow: " ++ f.name)
      ++ ["UI Quality Assessment", "Performance Assessment"] := by
  obtain ⟨hb1, hb2⟩ := basic_names m hbw
  obtain ⟨hfo1, hfo2⟩ := forms_names m hf hu
  obtain ⟨hre1, hre2⟩ := resp_names m
  obtain ⟨hui1, hui2⟩ := ui_names m hui
  obtain ⟨hpe1, hpe2⟩ := perf_names m hh hlc
  unfold runSuiteBody
  rw [show stagesFor m url .comprehensive =
    [fun c => (runBasicTests m, c), fun c => runNavigationTests m url c,
     fun c => (runFormTests m, c), fun c => (runResponsiveTests m, c)] from rfl,
    List.foldl_cons, List.foldl_cons, List.foldl_cons, List.foldl_cons, List.foldl_nil]
  have s1 := runStage_run (connAcc m url) (fun c => (runBasicTests m, c)) rfl
  have e1 : (runStage (connAcc m url) (fun c => (runBasicTests m, c))).err = none := by
    rw [s1.2]; exact hb2
  have s2 := runStage_run _ (fun c => runNavigationTests m url c) e1
  obtain ⟨hna1, hna2⟩ := nav_names m url
    (runStage (connAcc m url) (fun c => (runBasicTests m, c))).cur hnl hg
  have e2 : (runStage (runStage (connAcc m url) (fun c => (runBasicTests m, c)))
      (fun c => runNavigationTests m url c)).err = none := by
    rw [s2.2]; exact hna2
  have s3 := runStage_run _ (fun c => (runFormTests m, c)) e2
  have e3 : (runStage (runStage (runStage (connAcc m url) (fun c => (runBasicTests m, c)))
      (fun c => runNavigationTests m url c)) (fun c => (runFormTests m, c))).err = none := by
    rw [s3.2]; exact hfo2
  have s4 := runStage_run _ (fun c => (runResponsiveTests m, c)) e3
  have e4 : (runStage (runStage (runStage (runStage (connAcc m url)
      (fun c => (runBasicTests m, c))) (fun c => runNavigationTests m url c))
      (fun c => (runFormTests m, c))) (fun c => (runResponsiveTests m, c))).err = none := by
    rw [s4.2]; exact hre2
  obtain ⟨hfl1, hfl2⟩ := flows_fold_names flows _ e4
  have s5 := runStage_run _ (fun c => (assessUIQuality m, c)) hfl2
  have e5 : (runStage (flows.foldl (fun a f => runStage a (flowStage f))
      (runStage (runStage (runStage (runStage (connAcc m url)
        (fun c => (runBasicTests m, c))) (fun c => runNavigationTests m url c))
        (fun c => (runFormTests m, c))) (fun c => (runResponsiveTests m, c))))
      (fun c => (assessUIQuality m, c))).err = none := by
    rw [s5.2]; exact hui2
  have s6 := runStage_run _ (fun c => (assessPerformance m, c)) e5
  rw [s6.1, s5.1, hfl1, s4.1, s3.1, s2.1, s1.1]
  simp only [List.map_append, hb1, hna1, hfo1, hre1, hui1, hpe1, map_flow_names]
  have hconn : ((connAcc m url).results.map TestResult.testName) = ["Connectivity Test"] := by
    show [(testConnectivity m.connNav).testName] = ["Connectivity Test"]
    rw [testConnectivity_name]
  rw [hconn]
  simp

/-- Concrete flow appearing in the C4 counterexample. -/
def c4Flow : Flow := { name := "User Signup Flow", steps := [] }

/-- Claim C4 counterexample: with one custom flow, the TestResult sequence
places the flow's result before the UI-quality and performance
assessments, not after them as the claim requires. -/
theorem c4_counterexample :
    (outResults (functionalQATool {} "http://localhost:3000" .comprehensive [c4Flow]).output).map
        TestResult.testName =
      ["Connectivity Test", "Page Title Check", "Broken Images Check",
       "JavaScript Errors Check", "Navigation Links Test", "Form Structure Check",
       "Responsive Design Test", "User Flow: User Signup Flow",
       "UI Quality Assessment", "Performance Assessment"] ∧
      (outResults (functionalQATool {} "http://localhost:3000" .comprehensive [c4Flow]).output).map
        TestResult.testName ≠
      ["Connectivity Test", "Page Title Check", "Broken Images Check",
       "JavaScript Errors Check", "Navigation Links Test", "Form Structure Check",
       "Responsive Design Test", "UI Quality Assessment", "Performance Assessment",
       "User Flow: User Signup Flow"] := by
  constructor
  · rfl
  · decide

/-- Witness for the amended C4 theorem at a concrete model and flow. -/
theorem comprehensive_executes_in_order_witness :
    (runSuiteBody {} "http://localhost:3000" .comprehensive [c4Flow]).results.map
        TestResult.testName =
      ["Connectivity Test", "Page Title Check", "Broken Images Check",
       "JavaScript Errors Check", "Navigation Links Test", "Form Structure Check",
       "Responsive Design Test"]
      ++ [c4Flow].map (fun f => "User Flow: " ++ f.name)
      ++ ["UI Quality Assessment", "Performance Assessment"] := by
  exact comprehensive_executes_in_order {} "http://localhost:3000" [c4Flow]
    ⟨(), rfl⟩ ⟨[], rfl⟩ ⟨some 200, rfl⟩ ⟨[], rfl⟩ ⟨[], rfl⟩ ⟨([], []), rfl⟩
    ⟨0, rfl⟩ ⟨0, rfl⟩

/-! ### Recommendation generation (claim C10) -/

theorem bump_keys (c : String) (acc : List (String × Nat)) :
    (bump acc c).map Prod.fst =
      if c ∈ acc.map Prod.fst then acc.map Prod.fst else acc.map Prod.fst ++ [c] := by
  induction acc with
  | nil => simp [bump]
  | cons p rest ih =>
      obtain ⟨k, n⟩ := p
      by_cases hk : k = c
      · subst hk
        simp [bump]
      · have hbeq : (k == c) = false := by simp [hk]
        by_cases hc : c ∈ rest.map Prod.fst <;>
          simp [bump, hbeq, hc, ih, Ne.symm hk]

/-- Total count stored under one key of the tally (the key's value when
the keys are distinct). -/
def keyCount (acc : List (String × Nat)) (k : String) : Nat :=
  (acc.map fun p => if p.1 = k then p.2 else 0).sum

theorem bump_cons_eq (k : String) (n : Nat) (rest : List (String × Nat)) :
    bump ((k, n) :: rest) k = (k, n + 1) :: rest := by
  simp [bump]

theorem bump_cons_ne (a c : String) (n : Nat) (rest : List (String × Nat)) (h : a ≠ c) :
    bump ((a, n) :: rest) c = (a, n) :: bump rest c := by
  simp [bump, h]

theorem keyCount_bump (c k : String) (acc : List (String × Nat)) :
    keyCount (bump acc c) k = keyCount acc k + (if c = k then 1 else 0) := by
  induction acc with
  | nil => by_cases h : c = k <;> simp [bump, keyCount, h]
  | cons p rest ih =>
      obtain ⟨a, n⟩ := p
      by_cases hac : a = c
      · subst hac
        rw [bump_cons_eq]
        by_cases hak : a = k <;> simp [keyCount, hak] <;> omega
      · rw [bump_cons_ne a c n rest hac]
        by_cases hck : c = k <;> simp only [keyCount, List.map_cons, List.sum_cons] at ih ⊢ <;>
          simp [hck] at ih ⊢ <;> omega

theorem keyCount_eq_zero_of_not_mem (k : String) (acc : List (String × Nat))
    (h : k ∉ acc.map Prod.fst) : keyCount acc k = 0 := by
  induction acc with
  | nil => rfl
  | cons p rest ih =>
      simp only [List.map_cons, List.mem_cons] at h
      push_neg at h
      have hr := ih h.2
      simp only [keyCount, List.map_cons, List.sum_cons] at hr ⊢
      simp [Ne.symm h.1, hr]

theorem keyCount_of_mem_nodup (acc : List (String × Nat)) :
    ∀ k n, (acc.map Prod.fst).Nodup → (k, n) ∈ acc → keyCount acc k = n := by
  induction acc with
  | nil => intro k n h hm; cases hm
  | cons p rest ih =>
      intro k n hnd hm
      obtain ⟨a, b⟩ := p
      simp only [List.map_cons, List.nodup_cons] at hnd
      rcases List.mem_cons.mp hm with heq | hm2
      · injection heq with h1 h2
        subst h1
        subst h2
        have hz := keyCount_eq_zero_of_not_mem k rest hnd.1
        simp only [keyCount] at hz
        simp [keyCount, hz]
      · have hkmem : k ∈ rest.map Prod.fst :=
          List.mem_map.mpr ⟨(k, n), hm2, rfl⟩
        have hak : a ≠ k := fun h => hnd.1 (h ▸ hkmem)
        simpa [keyCount, hak] using ih k n hnd.2 hm2

theorem foldl_bump_keyCount (k : String) (l : List Issue) :
    ∀ acc, keyCount (l.foldl (fun a i => bump a i.category) acc) k =
      keyCount acc k + l.countP (fun i => i.category == k) := by
  induction l with
  | nil => intro acc; simp
  | cons i rest ih =>
      intro acc
      rw [List.foldl_cons, ih, keyCount_bump, List.countP_cons]
      by_cases h : i.category = k <;> simp [h] <;> omega

theorem keyCount_categoryCounts (issues : List Issue) (k : String) :
    keyCount (categoryCounts issues) k = issues.countP fun i => i.category == k := by
  unfold categoryCounts
  rw [foldl_bump_keyCount]
  simp [keyCount]

theorem foldl_bump_keys_nodup (l : List Issue) :
    ∀ acc : List (String × Nat), (acc.map Prod.fst).Nodup →
      ((l.foldl (fun a i => bump a i.category) acc).map Prod.fst).Nodup := by
  induction l with
  | nil => intro acc h; exact h
  | cons i rest ih =>
      intro acc h
      rw [List.foldl_cons]
      apply ih
      rw [bump_keys]
      split
      · exact h
      · next hnm =>
          rw [List.nodup_append]
          exact ⟨h, List.nodup_singleton _, by simpa using hnm⟩

theorem categoryCounts_keys_nodup (issues : List Issue) :
    ((categoryCounts issues).map Prod.fst).Nodup :=
  foldl_bump_keys_nodup issues [] (by simp)

theorem foldl_bump_mem_keys (k : String) (l : List Issue) :
    ∀ acc, k ∈ (l.foldl (fun a i => bump a i.category) acc).map Prod.fst ↔
      k ∈ acc.map Prod.fst ∨ ∃ i ∈ l, i.category = k := by
  induction l with
  | nil => intro acc; simp
  | cons i rest ih =>
      intro acc
      rw [List.foldl_cons, ih, bump_keys]
      split
      · next hmem =>
          constructor
          · rintro (h | ⟨j, hj, rfl⟩)
            · exact Or.inl h
            · exact Or.inr ⟨j, List.mem_cons_of_mem i hj, rfl⟩
          · rintro (h | ⟨j, hj, rfl⟩)
            · exact Or.inl h
            · rcases List.mem_cons.mp hj with rfl | hj2
              · exact Or.inl hmem
              · exact Or.inr ⟨j, hj2, rfl⟩
      · next hnm =>
          simp only [List.mem_append, List.mem_singleton]
          constructor
          · rintro ((h | rfl) | ⟨j, hj, rfl⟩)
            · exact Or.inl h
            · exact Or.inr ⟨i, List.mem_cons_self i rest, rfl⟩
            · exact Or.inr ⟨j, List.mem_cons_of_mem i hj, rfl⟩
          · rintro (h | ⟨j, hj, rfl⟩)
            · exact Or.inl (Or.inl h)
            · rcases List.mem_cons.mp hj with rfl | hj2
              · exact Or.inl (Or.inr rfl)
              · exact Or.inr ⟨j, hj2, rfl⟩

theorem mem_keys_categoryCounts (issues : List Issue) (k : String) :
    k ∈ (categoryCounts issues).map Prod.fst ↔ ∃ i ∈ issues, i.category = k := by
  unfold categoryCounts
  rw [foldl_bump_mem_keys]
  simp

theorem filter_length_pos_iff (p : Issue → Bool) (l : List Issue) :
    0 < (l.filter p).length ↔ l.any p = true := by
  rw [List.length_pos, Ne, List.filter_eq_nil]
  push_neg
  simp [List.any_eq_true]

/-- Claim C10: the recommendation list is deterministic and ordered — the
critical, major and minor banners appear exactly when an issue of that
severity exists, in that order; then exactly one focus line per distinct
category present among the issues (first-occurrence order, with its exact
count); and the positive-confirmation line appears exactly when there were
zero issues. -/
theorem recommendations_structure (qaResults : List TestResult) (issues : List Issue) :
    generateQARecommendations issues (mkSummary qaResults issues) =
      (if issues.any (fun i => i.severity == "critical") then [criticalBanner] else [])
      ++ (if issues.any (fun i => i.severity == "major") then [majorBanner] else [])
      ++ (if issues.any (fun i => i.severity == "minor") then [minorBanner] else [])
      ++ (categoryCounts issues).map (fun p => focusLine p.1 p.2)
      ++ (if issues.isEmpty then [positiveLine] else []) ∧
      ((categoryCounts issues).map Prod.fst).Nodup ∧
      (∀ c, c ∈ (categoryCounts issues).map Prod.fst ↔ ∃ i ∈ issues, i.category = c) ∧
      (categoryCounts issues).all
        (fun p => p.2 == issues.countP fun i => i.category == p.1) = true := by
  refine ⟨?_, categoryCounts_keys_nodup issues,
    fun c => mem_keys_categoryCounts issues c, ?_⟩
  · unfold generateQARecommendations mkSummary
    simp only [filter_length_pos_iff, beq_iff_eq, List.length_eq_zero, List.isEmpty_iff]
  · rw [List.all_eq_true]
    intro p hp
    obtain ⟨c, n⟩ := p
    have h1 := keyCount_of_mem_nodup (categoryCounts issues) c n
      (categoryCounts_keys_nodup issues) hp
    have h2 := keyCount_categoryCounts issues c
    rw [h1] at h2
    simpa using h2

/-- Concrete issue list for the C10 witness. -/
def c10Issues : List Issue :=
  [{ severity := "major", category := "Accessibility"
     issue := "3 form input(s) missing labels"
     recommendation := "Add labels to all form inputs for better accessibility" },
   { severity := "minor", category := "Accessibility", issue := "Missing alt text"
     recommendation := "Add descriptive alt text to all images" },
   { severity := "critical", category := "JavaScript"
     issue := "1 JavaScript error(s) detected"
     recommendation := "Fix JavaScript errors to ensure proper application functionality" }]

/-- Witness for C10: a focus line exists for a category exactly because an
issue of that category exists. -/
theorem recommendations_structure_witness :
    "Accessibility" ∈ (categoryCounts c10Issues).map Prod.fst ↔
      ∃ i ∈ c10Issues, i.category = "Accessibility" :=
  (recommendations_structure [] c10Issues).2.2.1 "Accessibility"

end QAMCP
